import Mathlib

/-!
Shallow embedding of `src/UI/Dashboard.cpp` (Serial Studio dashboard
view-model) and proofs about it.

Modelling conventions:
* `QVector<T>` / `QStringList` become `List T` / `List String`.
* C++ `int` indices and counts become `Int` (so negative indices are
  representable exactly as in the source).
* A `QJsonDocument` carried in a `JFI_Object` is modelled as
  `Option Frame`: either it parses to a frame or it does not.
* `emit`ted Qt signals are modelled by returning, next to the new state,
  the list of signals in the exact order the source emits them.
* Out-of-bounds `QVector::operator[]` accesses (undefined behaviour in
  the source) are modelled with `Option`: `none` means the access is
  outside the defined behaviour of the source.
-/

set_option maxHeartbeats 1000000

namespace UI

/-- JSON::Dataset as seen by Dashboard.cpp: a title, a widget handle
(`widget()`), and the plottable flag (`graph()`). -/
structure Dataset where
  title : String
  widget : String
  graph : Bool
  deriving DecidableEq, Repr

/-- JSON::Group as seen by Dashboard.cpp: a title, a widget handle
(`widget()`), and an ordered list of datasets. -/
structure Group where
  title : String
  widget : String
  datasets : List Dataset
  deriving DecidableEq, Repr

/-- JSON::Frame as seen by Dashboard.cpp: a title and an ordered list of
groups. -/
structure Frame where
  title : String
  groups : List Group
  deriving DecidableEq, Repr

/-- The JFI_Object frame-info record: the JSON document together with its
frame number.  The document is modelled as `Option Frame`: `some f` is a
document that `JSON::Frame::read` parses successfully to `f`, `none` is a
document it rejects. -/
structure JFI_Object where
  jsonDocument : Option Frame
  frameNumber : Int
  deriving DecidableEq, Repr

/-- `JFI_Empty()`: an empty frame-info record whose document parses to
nothing. -/
def JFI_Empty : JFI_Object := { jsonDocument := none, frameNumber := 0 }

/-- The Qt signals emitted by `UI::Dashboard`. -/
inductive Signal where
  | updated
  | dataReset
  | titleChanged
  | widgetCountChanged
  | widgetVisibilityChanged
  deriving DecidableEq, Repr

/-- The `Dashboard::WidgetType` enumeration. -/
inductive WidgetType where
  | Unknown
  | Group
  | Plot
  | Bar
  | Gauge
  | Thermometer
  | Compass
  | Gyroscope
  | Accelerometer
  | Map
  deriving DecidableEq, Repr, Fintype

/-- The mutable member state of `UI::Dashboard`: the latest frame-info
record, the latest parsed frame, the eight cached widget collections
(there is no cached collection for the Group kind: `groupCount()` reads
the frame directly), and the nine visibility vectors. -/
structure DashboardState where
  latestJsonFrame : JFI_Object
  latestFrame : Frame
  mapWidgets : List Group
  gyroscopeWidgets : List Group
  accelerometerWidgets : List Group
  plotWidgets : List Dataset
  barWidgets : List Dataset
  gaugeWidgets : List Dataset
  compassWidgets : List Dataset
  thermometerWidgets : List Dataset
  groupVisibility : List Bool
  plotVisibility : List Bool
  barVisibility : List Bool
  gaugeVisibility : List Bool
  thermometerVisibility : List Bool
  compassVisibility : List Bool
  gyroscopeVisibility : List Bool
  accelerometerVisibility : List Bool
  mapVisibility : List Bool
  deriving DecidableEq, Repr

/-- `Dashboard::title()`. -/
def title (s : DashboardState) : String := s.latestFrame.title

/-- `Dashboard::frameValid()` is `m_latestFrame.isValid()`; a frame parsed
from `some f` is valid.  Not needed by the claims but kept for
completeness of the interface. -/
def frameValid (s : DashboardState) : Bool := s.latestJsonFrame.jsonDocument.isSome

/-- `Dashboard::mapCount()`. -/
def mapCount (s : DashboardState) : Int := s.mapWidgets.length

/-- `Dashboard::barCount()`. -/
def barCount (s : DashboardState) : Int := s.barWidgets.length

/-- `Dashboard::plotCount()`. -/
def plotCount (s : DashboardState) : Int := s.plotWidgets.length

/-- `Dashboard::gaugeCount()`. -/
def gaugeCount (s : DashboardState) : Int := s.gaugeWidgets.length

/-- `Dashboard::groupCount()`: reads `m_latestFrame.groupCount()` directly,
not a cached collection. -/
def groupCount (s : DashboardState) : Int := s.latestFrame.groups.length

/-- `Dashboard::compassCount()`. -/
def compassCount (s : DashboardState) : Int := s.compassWidgets.length

/-- `Dashboard::gyroscopeCount()`. -/
def gyroscopeCount (s : DashboardState) : Int := s.gyroscopeWidgets.length

/-- `Dashboard::thermometerCount()`. -/
def thermometerCount (s : DashboardState) : Int := s.thermometerWidgets.length

/-- `Dashboard::accelerometerCount()`. -/
def accelerometerCount (s : DashboardState) : Int := s.accelerometerWidgets.length

/-- `Dashboard::totalWidgetCount()`: the sum of the nine per-kind counts,
in the order the source adds them. -/
def totalWidgetCount (s : DashboardState) : Int :=
  mapCount s +
  barCount s +
  plotCount s +
  gaugeCount s +
  groupCount s +
  compassCount s +
  gyroscopeCount s +
  thermometerCount s +
  accelerometerCount s

/-- `Dashboard::widgetType(globalIndex)`: the subtraction walk over the
kinds in the order group, plot, bar, gauge, thermometer, compass,
gyroscope, accelerometer, map; negative indices return `Unknown`
immediately. -/
def widgetType (s : DashboardState) (globalIndex : Int) : WidgetType :=
  if globalIndex < 0 then WidgetType.Unknown
  else
    let index := globalIndex
    if index < groupCount s then WidgetType.Group
    else
      let index := index - groupCount s
      if index < plotCount s then WidgetType.Plot
      else
        let index := index - plotCount s
        if index < barCount s then WidgetType.Bar
        else
          let index := index - barCount s
          if index < gaugeCount s then WidgetType.Gauge
          else
            let index := index - gaugeCount s
            if index < thermometerCount s then WidgetType.Thermometer
            else
              let index := index - thermometerCount s
              if index < compassCount s then WidgetType.Compass
              else
                let index := index - compassCount s
                if index < gyroscopeCount s then WidgetType.Gyroscope
                else
                  let index := index - gyroscopeCount s
                  if index < accelerometerCount s then WidgetType.Accelerometer
                  else
                    let index := index - accelerometerCount s
                    if index < mapCount s then WidgetType.Map
                    else WidgetType.Unknown

/-- `Dashboard::relativeIndex(globalIndex)`: the same subtraction walk,
but — exactly as in the source — without any check for a negative
`globalIndex`. -/
def relativeIndex (s : DashboardState) (globalIndex : Int) : Int :=
  let index := globalIndex
  if index < groupCount s then index
  else
    let index := index - groupCount s
    if index < plotCount s then index
    else
      let index := index - plotCount s
      if index < barCount s then index
      else
        let index := index - barCount s
        if index < gaugeCount s then index
        else
          let index := index - gaugeCount s
          if index < thermometerCount s then index
          else
            let index := index - thermometerCount s
            if index < compassCount s then index
            else
              let index := index - compassCount s
              if index < gyroscopeCount s then index
              else
                let index := index - gyroscopeCount s
                if index < accelerometerCount s then index
                else
                  let index := index - accelerometerCount s
                  if index < mapCount s then index
                  else -1

/-- The count of a given kind, phrased over the `WidgetType` enumeration
(aggregates the nine per-kind count functions; `Unknown` has no
collection). -/
def kindCount (s : DashboardState) : WidgetType → Int
  | WidgetType.Group => groupCount s
  | WidgetType.Plot => plotCount s
  | WidgetType.Bar => barCount s
  | WidgetType.Gauge => gaugeCount s
  | WidgetType.Thermometer => thermometerCount s
  | WidgetType.Compass => compassCount s
  | WidgetType.Gyroscope => gyroscopeCount s
  | WidgetType.Accelerometer => accelerometerCount s
  | WidgetType.Map => mapCount s
  | WidgetType.Unknown => 0

/-- The frame produced by reading an empty document: no title, no groups. -/
def emptyFrame : Frame := { title := "", groups := [] }

/-- A freshly constructed dashboard: empty frame-info record, empty frame,
all collections and visibility vectors empty. -/
def emptyState : DashboardState :=
  { latestJsonFrame := JFI_Empty
    latestFrame := emptyFrame
    mapWidgets := []
    gyroscopeWidgets := []
    accelerometerWidgets := []
    plotWidgets := []
    barWidgets := []
    gaugeWidgets := []
    compassWidgets := []
    thermometerWidgets := []
    groupVisibility := []
    plotVisibility := []
    barVisibility := []
    gaugeVisibility := []
    thermometerVisibility := []
    compassVisibility := []
    gyroscopeVisibility := []
    accelerometerVisibility := []
    mapVisibility := [] }

/-- A one-group frame used as a concrete evaluation input. -/
def sampleFrame : Frame :=
  { title := "T", groups := [{ title := "a", widget := "", datasets := [] }] }

/-- A dashboard whose current frame is `sampleFrame` (one group widget, so
`totalWidgetCount = 1`). -/
def sampleState : DashboardState :=
  { emptyState with
    latestFrame := sampleFrame
    latestJsonFrame := { jsonDocument := some sampleFrame, frameNumber := 1 } }

/-- QVector read access `vector[index]`: defined behaviour only for
`0 ≤ index < length`; `none` models the out-of-bounds (undefined
behaviour) access the source performs otherwise. -/
def vectorAt (vector : List Bool) (index : Int) : Option Bool :=
  if 0 ≤ index then vector[index.toNat]? else none

/-- QVector write access `vector[index] = value`: defined behaviour only
for `0 ≤ index < length`; `none` models the out-of-bounds write. -/
def vectorSet (vector : List Bool) (index : Int) (value : Bool) :
    Option (List Bool) :=
  if 0 ≤ index ∧ index.toNat < vector.length then
    some (vector.set index.toNat value)
  else none

/-- `Dashboard::getVisibility(vector, index)`: the source only guards
`index < vector.count()` — there is no lower-bound check before
`vector[index]`. -/
def getVisibility (vector : List Bool) (index : Int) : Option Bool :=
  if index < (vector.length : Int) then vectorAt vector index
  else some false

/-- `Dashboard::setVisibility(vector, index, visible)`: returns the new
vector and whether `widgetVisibilityChanged` was emitted.  The source only
guards `index < vector.count()` before writing `vector[index]` and
emitting. -/
def setVisibility (vector : List Bool) (index : Int) (visible : Bool) :
    Option (List Bool × Bool) :=
  if index < (vector.length : Int) then
    (vectorSet vector index visible).map (fun v => (v, true))
  else some (vector, false)

/-- `QString::toLower` for the ASCII widget handles used by the source,
written over the character list so that it evaluates in proofs. -/
def qtToLower (s : String) : String := ⟨s.data.map Char.toLower⟩

/-- `Dashboard::getPlotWidgets()`: every dataset of every group whose
`graph()` flag is set, in frame traversal order. -/
def getPlotWidgets (f : Frame) : List Dataset :=
  f.groups.flatMap (fun g => g.datasets.filter (fun d => d.graph))

/-- `Dashboard::getWidgetGroups(handle)`: the groups whose handle,
lowercased, equals `handle`. -/
def getWidgetGroups (f : Frame) (handle : String) : List Group :=
  f.groups.filter (fun g => qtToLower g.widget == handle)

/-- `Dashboard::getWidgetDatasets(handle)`: the datasets, across all
groups, whose handle equals `handle` — note: unlike `getWidgetGroups`,
the comparison is exact (no `toLower`). -/
def getWidgetDatasets (f : Frame) (handle : String) : List Dataset :=
  f.groups.flatMap (fun g => g.datasets.filter (fun d => d.widget == handle))

/-- `Dashboard::datasetTitles(vector)`. -/
def datasetTitles (vector : List Dataset) : List String := vector.map Dataset.title

/-- `Dashboard::groupTitles(vector)` (the overload taking a vector). -/
def groupTitlesOf (vector : List Group) : List String := vector.map Group.title

/-- `Dashboard::barTitles()`. -/
def barTitles (s : DashboardState) : List String := datasetTitles s.barWidgets

/-- `Dashboard::mapTitles()`. -/
def mapTitles (s : DashboardState) : List String := groupTitlesOf s.mapWidgets

/-- `Dashboard::plotTitles()`. -/
def plotTitles (s : DashboardState) : List String := datasetTitles s.plotWidgets

/-- `Dashboard::groupTitles()`: the titles of all groups of the current
frame. -/
def groupTitles (s : DashboardState) : List String :=
  groupTitlesOf s.latestFrame.groups

/-- `Dashboard::gaugeTitles()`. -/
def gaugeTitles (s : DashboardState) : List String := datasetTitles s.gaugeWidgets

/-- `Dashboard::compassTitles()`. -/
def compassTitles (s : DashboardState) : List String := datasetTitles s.compassWidgets

/-- `Dashboard::gyroscopeTitles()`. -/
def gyroscopeTitles (s : DashboardState) : List String := groupTitlesOf s.gyroscopeWidgets

/-- `Dashboard::thermometerTitles()`. -/
def thermometerTitles (s : DashboardState) : List String :=
  datasetTitles s.thermometerWidgets

/-- `Dashboard::accelerometerTitles()`. -/
def accelerometerTitles (s : DashboardState) : List String :=
  groupTitlesOf s.accelerometerWidgets

/-- `Dashboard::widgetTitles()`: the per-kind title lists concatenated in
the order the source adds them (group, plot, bar, gauge, thermometer,
compass, gyroscope, accelerometer, map). -/
def widgetTitles (s : DashboardState) : List String :=
  groupTitles s ++ plotTitles s ++ barTitles s ++ gaugeTitles s ++
    thermometerTitles s ++ compassTitles s ++ gyroscopeTitles s ++
    accelerometerTitles s ++ mapTitles s

/-- The visibility vector of each kind (`Unknown` has none). -/
def visVector (s : DashboardState) : WidgetType → List Bool
  | WidgetType.Group => s.groupVisibility
  | WidgetType.Plot => s.plotVisibility
  | WidgetType.Bar => s.barVisibility
  | WidgetType.Gauge => s.gaugeVisibility
  | WidgetType.Thermometer => s.thermometerVisibility
  | WidgetType.Compass => s.compassVisibility
  | WidgetType.Gyroscope => s.gyroscopeVisibility
  | WidgetType.Accelerometer => s.accelerometerVisibility
  | WidgetType.Map => s.mapVisibility
  | WidgetType.Unknown => []

/-- Modelled from the spec: `JSON::Frame::read` (JSON/Frame.cpp is not
among the sources under verification; only its caller is).  Per the spec,
a document that fails to parse is "rejected wholesale" and leaves the
stored frame untouched while the method reports failure; a successful
parse replaces the stored frame.  The document itself is modelled as
`Option Frame`. -/
def frameRead (current : Frame) (doc : Option Frame) : Bool × Frame :=
  match doc with
  | some f => (true, f)
  | none => (false, current)

/-- The "Clear widget data" block of `resetData()`/`updateData()`: clears
the eight cached collections (the Group kind has no cached collection). -/
def clearWidgets (s : DashboardState) : DashboardState :=
  { s with
    barWidgets := []
    mapWidgets := []
    plotWidgets := []
    gaugeWidgets := []
    compassWidgets := []
    gyroscopeWidgets := []
    thermometerWidgets := []
    accelerometerWidgets := [] }

/-- The "Clear widget visibility data" block: clears all nine visibility
vectors. -/
def clearVisibility (s : DashboardState) : DashboardState :=
  { s with
    barVisibility := []
    mapVisibility := []
    plotVisibility := []
    gaugeVisibility := []
    groupVisibility := []
    compassVisibility := []
    gyroscopeVisibility := []
    thermometerVisibility := []
    accelerometerVisibility := [] }

/-- The "Update widget vectors" block of `updateData()`: stores the parsed
frame and the classification of its groups and datasets into the eight
cached collections. -/
def classified (s : DashboardState) (f : Frame) : DashboardState :=
  { s with
    latestFrame := f
    plotWidgets := getPlotWidgets f
    mapWidgets := getWidgetGroups f "map"
    barWidgets := getWidgetDatasets f "bar"
    gaugeWidgets := getWidgetDatasets f "gauge"
    gyroscopeWidgets := getWidgetGroups f "gyro"
    compassWidgets := getWidgetDatasets f "compass"
    thermometerWidgets := getWidgetDatasets f "thermometer"
    accelerometerWidgets := getWidgetGroups f "accelerometer" }

/-- The per-kind `for` loops of the "Regenerate widget visiblity models"
block: every visibility vector becomes all-`true` with the length of its
kind's current count. -/
def reinitVisibility (s : DashboardState) : DashboardState :=
  { s with
    barVisibility := List.replicate s.barWidgets.length true
    mapVisibility := List.replicate s.mapWidgets.length true
    plotVisibility := List.replicate s.plotWidgets.length true
    gaugeVisibility := List.replicate s.gaugeWidgets.length true
    groupVisibility := List.replicate s.latestFrame.groups.length true
    compassVisibility := List.replicate s.compassWidgets.length true
    gyroscopeVisibility := List.replicate s.gyroscopeWidgets.length true
    thermometerVisibility := List.replicate s.thermometerWidgets.length true
    accelerometerVisibility := List.replicate s.accelerometerWidgets.length true }

/-- The `regenerateWidgets` condition of `updateData()`: some kind's count
in the old state differs from its count in the reclassified state. -/
def regenProp (old new : DashboardState) : Prop :=
  barCount old ≠ barCount new ∨ mapCount old ≠ mapCount new ∨
  plotCount old ≠ plotCount new ∨ gaugeCount old ≠ gaugeCount new ∨
  groupCount old ≠ groupCount new ∨ compassCount old ≠ compassCount new ∨
  gyroscopeCount old ≠ gyroscopeCount new ∨
  thermometerCount old ≠ thermometerCount new ∨
  accelerometerCount old ≠ accelerometerCount new

instance (old new : DashboardState) : Decidable (regenProp old new) := by
  unfold regenProp
  exact inferInstance

/-- `Dashboard::resetData()`: resets the frame-info record, re-reads the
(empty, hence unparseable) document, clears all collections and all
visibility vectors, and emits — in the source's order — `updated` first,
then `dataReset`, `titleChanged`, `widgetCountChanged`,
`widgetVisibilityChanged`. -/
def resetData (s : DashboardState) : DashboardState × List Signal :=
  let rd := frameRead s.latestFrame JFI_Empty.jsonDocument
  let s1 : DashboardState := { s with latestJsonFrame := JFI_Empty, latestFrame := rd.2 }
  let s2 := clearVisibility (clearWidgets s1)
  (s2,
    [Signal.updated, Signal.dataReset, Signal.titleChanged,
      Signal.widgetCountChanged, Signal.widgetVisibilityChanged])

/-- `Dashboard::updateData()`: capture the previous counts and title (here
readings of the pre-state `s`, which is immutable), clear the cached
collections, re-read the stored document; on failure return early with no
signals; on success reclassify, emit `titleChanged` if the title changed,
rebuild all visibility vectors when any kind's count changed (emitting
`widgetCountChanged` then `widgetVisibilityChanged`), and always emit
`updated` last. -/
def updateData (s : DashboardState) : DashboardState × List Signal :=
  let s1 := clearWidgets s
  let rd := frameRead s1.latestFrame s1.latestJsonFrame.jsonDocument
  if rd.1 = false then ({ s1 with latestFrame := rd.2 }, [])
  else
    let s3 := classified { s1 with latestFrame := rd.2 } rd.2
    let titleSigs := if title s ≠ title s3 then [Signal.titleChanged] else []
    if regenProp s s3 then
      (reinitVisibility (clearVisibility s3),
        titleSigs ++
          [Signal.widgetCountChanged, Signal.widgetVisibilityChanged, Signal.updated])
    else (s3, titleSigs ++ [Signal.updated])

/-- `Dashboard::selectLatestJSON(frameInfo)`: adopt the candidate
frame-info record only when its frame number is strictly greater than the
stored one. -/
def selectLatestJSON (s : DashboardState) (frameInfo : JFI_Object) : DashboardState :=
  if s.latestJsonFrame.frameNumber < frameInfo.frameNumber then
    { s with latestJsonFrame := frameInfo }
  else s

/-- `ingest` as the spec composes it: frame admission via
`selectLatestJSON`, followed by the `updateData()` pass. -/
def ingest (s : DashboardState) (frameInfo : JFI_Object) : DashboardState × List Signal :=
  updateData (selectLatestJSON s frameInfo)

/-- A dashboard holding a pending valid document while its current frame is
still empty: ingesting it changes the Group count from 0 to 1. -/
def pendingState : DashboardState :=
  { emptyState with
    latestJsonFrame := { jsonDocument := some sampleFrame, frameNumber := 1 } }

/-- A dashboard already consistent with `sampleFrame`, whose single Group
widget was hidden via `setGroupVisible(0, false)`: re-ingesting the same
frame keeps every per-kind count, so visibility must be preserved. -/
def stableState : DashboardState :=
  { sampleState with groupVisibility := [false] }

/-- A dashboard holding a stale frame (`sampleFrame`) together with an
unparseable pending document. -/
def sampleInvalidState : DashboardState :=
  { sampleState with latestJsonFrame := { jsonDocument := none, frameNumber := 2 } }

/-- A frame with one dataset whose handle "Bar" differs from the tag "bar"
only in case. -/
def mixedCaseFrame : Frame :=
  { title := ""
    groups :=
      [{ title := "g", widget := ""
         datasets := [{ title := "d", widget := "Bar", graph := false }] }] }

/-- A group whose handle "MAP" differs from the tag "map" only in case. -/
def mapGroupUpper : Group := { title := "m", widget := "MAP", datasets := [] }

/-- A frame containing `mapGroupUpper`. -/
def mapFrameUpper : Frame := { title := "", groups := [mapGroupUpper] }

/-- A dataset whose handle is exactly "bar". -/
def barDataset : Dataset := { title := "d", widget := "bar", graph := false }

/-- A frame containing `barDataset`. -/
def barFrame : Frame :=
  { title := ""
    groups := [{ title := "g", widget := "", datasets := [barDataset] }] }

/-- The sample frame-info record used for the duplicate-delivery scenario. -/
def jfiSample : JFI_Object := { jsonDocument := some sampleFrame, frameNumber := 1 }

theorem mapCount_nonneg (s : DashboardState) : 0 ≤ mapCount s := Int.natCast_nonneg _

theorem barCount_nonneg (s : DashboardState) : 0 ≤ barCount s := Int.natCast_nonneg _

theorem plotCount_nonneg (s : DashboardState) : 0 ≤ plotCount s := Int.natCast_nonneg _

theorem gaugeCount_nonneg (s : DashboardState) : 0 ≤ gaugeCount s := Int.natCast_nonneg _

theorem groupCount_nonneg (s : DashboardState) : 0 ≤ groupCount s := Int.natCast_nonneg _

theorem compassCount_nonneg (s : DashboardState) : 0 ≤ compassCount s := Int.natCast_nonneg _

theorem gyroscopeCount_nonneg (s : DashboardState) : 0 ≤ gyroscopeCount s :=
  Int.natCast_nonneg _

theorem thermometerCount_nonneg (s : DashboardState) : 0 ≤ thermometerCount s :=
  Int.natCast_nonneg _

theorem accelerometerCount_nonneg (s : DashboardState) : 0 ≤ accelerometerCount s :=
  Int.natCast_nonneg _

/-- Claim C1: for every `globalIndex` in `[0, totalWidgetCount())`, the
subtraction walk resolves it to a kind that is not `Unknown` and a local
index with `0 ≤ localIndex < count(kind)`. -/
theorem C1_global_index_resolution (s : DashboardState) (globalIndex : Int)
    (h0 : 0 ≤ globalIndex) (h1 : globalIndex < totalWidgetCount s) :
    widgetType s globalIndex ≠ WidgetType.Unknown ∧
    0 ≤ relativeIndex s globalIndex ∧
    relativeIndex s globalIndex < kindCount s (widgetType s globalIndex) := by
  have hm := mapCount_nonneg s
  have hb := barCount_nonneg s
  have hp := plotCount_nonneg s
  have hga := gaugeCount_nonneg s
  have hgr := groupCount_nonneg s
  have hc := compassCount_nonneg s
  have hgy := gyroscopeCount_nonneg s
  have hth := thermometerCount_nonneg s
  have hac := accelerometerCount_nonneg s
  simp only [totalWidgetCount] at h1
  simp only [widgetType, relativeIndex]
  rw [if_neg (by omega : ¬ globalIndex < 0)]
  by_cases h2 : globalIndex < groupCount s
  · simp only [if_pos h2, kindCount]
    exact ⟨by decide, by omega, h2⟩
  simp only [if_neg h2]
  by_cases h3 : globalIndex - groupCount s < plotCount s
  · simp only [if_pos h3, kindCount]
    exact ⟨by decide, by omega, h3⟩
  simp only [if_neg h3]
  by_cases h4 : globalIndex - groupCount s - plotCount s < barCount s
  · simp only [if_pos h4, kindCount]
    exact ⟨by decide, by omega, h4⟩
  simp only [if_neg h4]
  by_cases h5 : globalIndex - groupCount s - plotCount s - barCount s < gaugeCount s
  · simp only [if_pos h5, kindCount]
    exact ⟨by decide, by omega, h5⟩
  simp only [if_neg h5]
  by_cases h6 :
      globalIndex - groupCount s - plotCount s - barCount s - gaugeCount s < thermometerCount s
  · simp only [if_pos h6, kindCount]
    exact ⟨by decide, by omega, h6⟩
  simp only [if_neg h6]
  by_cases h7 :
      globalIndex - groupCount s - plotCount s - barCount s - gaugeCount s - thermometerCount s <
        compassCount s
  · simp only [if_pos h7, kindCount]
    exact ⟨by decide, by omega, h7⟩
  simp only [if_neg h7]
  by_cases h8 :
      globalIndex - groupCount s - plotCount s - barCount s - gaugeCount s - thermometerCount s -
          compassCount s < gyroscopeCount s
  · simp only [if_pos h8, kindCount]
    exact ⟨by decide, by omega, h8⟩
  simp only [if_neg h8]
  by_cases h9 :
      globalIndex - groupCount s - plotCount s - barCount s - gaugeCount s - thermometerCount s -
          compassCount s - gyroscopeCount s < accelerometerCount s
  · simp only [if_pos h9, kindCount]
    exact ⟨by decide, by omega, h9⟩
  simp only [if_neg h9]
  by_cases h10 :
      globalIndex - groupCount s - plotCount s - barCount s - gaugeCount s - thermometerCount s -
          compassCount s - gyroscopeCount s - accelerometerCount s < mapCount s
  · simp only [if_pos h10, kindCount]
    exact ⟨by decide, by omega, h10⟩
  exfalso
  omega

/-- Witness for C1 at the concrete state `sampleState` and index 0. -/
theorem C1_global_index_resolution_witness :
    (0 : Int) ≤ 0 ∧ (0 : Int) < totalWidgetCount sampleState ∧
    (widgetType sampleState 0 ≠ WidgetType.Unknown ∧
      0 ≤ relativeIndex sampleState 0 ∧
      relativeIndex sampleState 0 < kindCount sampleState (widgetType sampleState 0)) :=
  ⟨by decide, by decide, C1_global_index_resolution sampleState 0 (by decide) (by decide)⟩

/-- Counterexample to C2 as stated: at the empty dashboard,
`relativeIndex (-2)` returns `-2` (the walk has no negative-index guard and
returns the index itself), not the claimed sentinel `-1`. -/
theorem C2_sentinel_counterexample :
    ¬ (widgetType emptyState (-2) = WidgetType.Unknown ∧
        relativeIndex emptyState (-2) = -1) := by
  decide

/-- Claim C2 amended: out-of-range resolution returns `Unknown` from
`widgetType`; `relativeIndex` returns `-1` for indices at or past
`totalWidgetCount()`, but for a negative `globalIndex` it returns the
index itself (only `-1` happens to map to `-1`). -/
theorem C2_sentinel_amended (s : DashboardState) (globalIndex : Int)
    (h : globalIndex < 0 ∨ totalWidgetCount s ≤ globalIndex) :
    widgetType s globalIndex = WidgetType.Unknown ∧
    relativeIndex s globalIndex = (if globalIndex < 0 then globalIndex else -1) := by
  have hm := mapCount_nonneg s
  have hb := barCount_nonneg s
  have hp := plotCount_nonneg s
  have hga := gaugeCount_nonneg s
  have hgr := groupCount_nonneg s
  have hc := compassCount_nonneg s
  have hgy := gyroscopeCount_nonneg s
  have hth := thermometerCount_nonneg s
  have hac := accelerometerCount_nonneg s
  simp only [totalWidgetCount] at h
  constructor
  · simp only [widgetType]
    split_ifs <;> first | rfl | (exfalso; omega)
  · simp only [relativeIndex]
    split_ifs <;> omega

/-- Witness for the amended C2 at the empty dashboard and index 3. -/
theorem C2_sentinel_amended_witness :
    ((3 : Int) < 0 ∨ totalWidgetCount emptyState ≤ 3) ∧
    (widgetType emptyState 3 = WidgetType.Unknown ∧
      relativeIndex emptyState 3 = (if (3 : Int) < 0 then (3 : Int) else -1)) :=
  ⟨by decide, C2_sentinel_amended emptyState 3 (by decide)⟩

/-- Counterexample to C6 as stated: at a negative index the guard
`index < vector.count()` passes and the source accesses the vector out of
bounds, for the read and the write alike — it does not return the `false`
sentinel, and `setVisibility` is not a signal-free no-op. -/
theorem C6_bounds_counterexample :
    getVisibility [true] (-1) ≠ some false ∧
    setVisibility [true] (-1) false ≠ some ([true], false) := by
  decide

/-- Claim C6 amended: for `localIndex ≥ len(vector)` the sentinel behaviour
holds (`false` is returned, the write is a signal-free no-op), but for a
negative `localIndex` the guard passes and the source performs an
out-of-bounds vector access (undefined behaviour, modelled as `none`). -/
theorem C6_bounds_amended (vector : List Bool) (index : Int) (visible : Bool) :
    ((vector.length : Int) ≤ index →
      getVisibility vector index = some false ∧
      setVisibility vector index visible = some (vector, false)) ∧
    (index < 0 →
      getVisibility vector index = none ∧
      setVisibility vector index visible = none) := by
  constructor
  · intro h
    constructor
    · simp only [getVisibility]
      rw [if_neg (by omega)]
    · simp only [setVisibility]
      rw [if_neg (by omega)]
  · intro h
    constructor
    · simp only [getVisibility, vectorAt]
      rw [if_pos (by omega), if_neg (by omega)]
    · simp only [setVisibility, vectorSet]
      rw [if_pos (by omega), if_neg (fun hc => absurd hc.1 (by omega))]
      rfl

/-- Witness for the amended C6 at a one-element vector, indices 5 and -3. -/
theorem C6_bounds_amended_witness :
    (getVisibility [true] 5 = some false ∧
      setVisibility [true] 5 false = some ([true], false)) ∧
    (getVisibility [true] (-3) = none ∧
      setVisibility [true] (-3) false = none) :=
  ⟨(C6_bounds_amended [true] 5 false).1 (by decide),
    (C6_bounds_amended [true] (-3) false).2 (by decide)⟩

theorem updateData_none {s : DashboardState}
    (h : s.latestJsonFrame.jsonDocument = none) :
    updateData s = (clearWidgets s, []) := by
  simp [updateData, frameRead, clearWidgets, h]

theorem updateData_some {s : DashboardState} {f : Frame}
    (h : s.latestJsonFrame.jsonDocument = some f) :
    updateData s =
      (let s3 := classified (clearWidgets s) f
       let titleSigs := if title s ≠ title s3 then [Signal.titleChanged] else []
       if regenProp s s3 then
         (reinitVisibility (clearVisibility s3),
           titleSigs ++
             [Signal.widgetCountChanged, Signal.widgetVisibilityChanged, Signal.updated])
       else (s3, titleSigs ++ [Signal.updated])) := by
  simp [updateData, frameRead, clearWidgets, classified, h]

theorem kindCount_clearVisibility (s : DashboardState) (k : WidgetType) :
    kindCount (clearVisibility s) k = kindCount s k := by
  cases k <;> rfl

theorem kindCount_reinitVisibility (s : DashboardState) (k : WidgetType) :
    kindCount (reinitVisibility s) k = kindCount s k := by
  cases k <;> rfl

/-- Claim C3: on ingesting a valid frame, if any kind's count changed then
every kind's visibility vector is rebuilt all-`true` at its kind's new
count; if no kind's count changed, every visibility vector is left
untouched. -/
theorem C3_visibility_rebuild (s : DashboardState) (f : Frame)
    (h : s.latestJsonFrame.jsonDocument = some f) :
    ((∃ k, kindCount (updateData s).1 k ≠ kindCount s k) →
      ∀ k, visVector (updateData s).1 k =
        List.replicate (kindCount (updateData s).1 k).toNat true) ∧
    ((∀ k, kindCount (updateData s).1 k = kindCount s k) →
      ∀ k, visVector (updateData s).1 k = visVector s k) := by
  rw [updateData_some h]
  by_cases hr : regenProp s (classified (clearWidgets s) f)
  · simp only [if_pos hr]
    constructor
    · intro _ k
      rw [kindCount_reinitVisibility, kindCount_clearVisibility]
      cases k <;>
        simp [visVector, reinitVisibility, clearVisibility, kindCount, barCount,
          mapCount, plotCount, gaugeCount, groupCount, compassCount,
          gyroscopeCount, thermometerCount, accelerometerCount]
    · intro hall
      exfalso
      rcases hr with hd | hd | hd | hd | hd | hd | hd | hd | hd
      · exact hd (hall WidgetType.Bar).symm
      · exact hd (hall WidgetType.Map).symm
      · exact hd (hall WidgetType.Plot).symm
      · exact hd (hall WidgetType.Gauge).symm
      · exact hd (hall WidgetType.Group).symm
      · exact hd (hall WidgetType.Compass).symm
      · exact hd (hall WidgetType.Gyroscope).symm
      · exact hd (hall WidgetType.Thermometer).symm
      · exact hd (hall WidgetType.Accelerometer).symm
  · simp only [if_neg hr]
    simp only [regenProp, not_or, not_not] at hr
    obtain ⟨e1, e2, e3, e4, e5, e6, e7, e8, e9⟩ := hr
    constructor
    · rintro ⟨k0, hk0⟩
      exfalso
      cases k0 with
      | Unknown => exact hk0 rfl
      | Group => exact hk0 e5.symm
      | Plot => exact hk0 e3.symm
      | Bar => exact hk0 e1.symm
      | Gauge => exact hk0 e4.symm
      | Thermometer => exact hk0 e8.symm
      | Compass => exact hk0 e6.symm
      | Gyroscope => exact hk0 e7.symm
      | Accelerometer => exact hk0 e9.symm
      | Map => exact hk0 e2.symm
    · intro _ k
      cases k <;> rfl

/-- Witness for C3: at `pendingState` the Group count changes (0 to 1) and
the Group visibility vector is rebuilt; at `stableState` no count changes
and the hidden Group widget stays hidden. -/
theorem C3_visibility_rebuild_witness :
    (pendingState.latestJsonFrame.jsonDocument = some sampleFrame ∧
      (∃ k, kindCount (updateData pendingState).1 k ≠ kindCount pendingState k) ∧
      visVector (updateData pendingState).1 WidgetType.Group =
        List.replicate
          (kindCount (updateData pendingState).1 WidgetType.Group).toNat true) ∧
    (stableState.latestJsonFrame.jsonDocument = some sampleFrame ∧
      (∀ k, kindCount (updateData stableState).1 k = kindCount stableState k) ∧
      visVector (updateData stableState).1 WidgetType.Group =
        visVector stableState WidgetType.Group) :=
  ⟨⟨rfl, ⟨WidgetType.Group, by decide⟩,
      (C3_visibility_rebuild pendingState sampleFrame rfl).1
        ⟨WidgetType.Group, by decide⟩ WidgetType.Group⟩,
    ⟨rfl, by decide,
      (C3_visibility_rebuild stableState sampleFrame rfl).2 (by decide)
        WidgetType.Group⟩⟩

/-- Claim C4: on an unparseable frame, `updateData()` clears the eight
cached collections, leaves the stored frame, the frame-info record and
every visibility vector untouched, and returns early emitting nothing. -/
theorem C4_invalid_frame_early_return (s : DashboardState)
    (h : s.latestJsonFrame.jsonDocument = none) :
    (updateData s).1.barWidgets = [] ∧ (updateData s).1.mapWidgets = [] ∧
    (updateData s).1.plotWidgets = [] ∧ (updateData s).1.gaugeWidgets = [] ∧
    (updateData s).1.compassWidgets = [] ∧
    (updateData s).1.gyroscopeWidgets = [] ∧
    (updateData s).1.thermometerWidgets = [] ∧
    (updateData s).1.accelerometerWidgets = [] ∧
    (updateData s).1.latestFrame = s.latestFrame ∧
    (updateData s).1.latestJsonFrame = s.latestJsonFrame ∧
    (∀ k, visVector (updateData s).1 k = visVector s k) ∧
    (updateData s).2 = [] := by
  rw [updateData_none h]
  refine ⟨rfl, rfl, rfl, rfl, rfl, rfl, rfl, rfl, rfl, rfl, ?_, rfl⟩
  intro k
  cases k <;> rfl

/-- Witness for C4 at a freshly reset dashboard that still carries a stale
frame (`sampleFrame`) with an unparseable pending document. -/
theorem C4_invalid_frame_early_return_witness :
    (sampleInvalidState.latestJsonFrame.jsonDocument = none) ∧
    ((updateData sampleInvalidState).1.latestFrame =
        sampleInvalidState.latestFrame ∧
      (updateData sampleInvalidState).2 = []) :=
  ⟨rfl,
    ⟨(C4_invalid_frame_early_return sampleInvalidState rfl).2.2.2.2.2.2.2.2.1,
      (C4_invalid_frame_early_return sampleInvalidState rfl).2.2.2.2.2.2.2.2.2.2.2⟩⟩

/-- Claim C10: after the early return on an unparseable frame, the eight
cached collections are empty while `groupCount()` still reads the stored
frame (unaffected by the clearing step), and `totalWidgetCount()` then
equals `groupCount()`. -/
theorem C10_invalid_frame_counts (s : DashboardState)
    (h : s.latestJsonFrame.jsonDocument = none) :
    plotCount (updateData s).1 = 0 ∧ barCount (updateData s).1 = 0 ∧
    gaugeCount (updateData s).1 = 0 ∧ thermometerCount (updateData s).1 = 0 ∧
    compassCount (updateData s).1 = 0 ∧ gyroscopeCount (updateData s).1 = 0 ∧
    accelerometerCount (updateData s).1 = 0 ∧ mapCount (updateData s).1 = 0 ∧
    groupCount (updateData s).1 =
      ((updateData s).1.latestFrame.groups.length : Int) ∧
    (updateData s).1.latestFrame = s.latestFrame ∧
    groupCount (updateData s).1 = groupCount s ∧
    totalWidgetCount (updateData s).1 = groupCount (updateData s).1 := by
  rw [updateData_none h]
  refine ⟨rfl, rfl, rfl, rfl, rfl, rfl, rfl, rfl, rfl, rfl, rfl, ?_⟩
  simp [totalWidgetCount, clearWidgets, mapCount, barCount, plotCount, gaugeCount,
    compassCount, gyroscopeCount, thermometerCount, accelerometerCount]

/-- Witness for C10 at the same stale-frame state as C4. -/
theorem C10_invalid_frame_counts_witness :
    (sampleInvalidState.latestJsonFrame.jsonDocument = none) ∧
    (totalWidgetCount (updateData sampleInvalidState).1 =
        groupCount (updateData sampleInvalidState).1 ∧
      groupCount (updateData sampleInvalidState).1 =
        groupCount sampleInvalidState) :=
  ⟨rfl,
    ⟨(C10_invalid_frame_counts sampleInvalidState rfl).2.2.2.2.2.2.2.2.2.2.2,
      (C10_invalid_frame_counts sampleInvalidState rfl).2.2.2.2.2.2.2.2.2.2.1⟩⟩

/-- Counterexample to C5 as stated: `resetData()` does not emit `updated`
last — the emission list does not match the claimed order. -/
theorem C5_reset_signal_order_counterexample :
    (resetData emptyState).2 ≠
      [Signal.dataReset, Signal.titleChanged, Signal.widgetCountChanged,
        Signal.widgetVisibilityChanged, Signal.updated] := by
  decide

/-- Claim C5 amended: `resetData()` emits `updated` FIRST, followed by
`dataReset`, `titleChanged`, `widgetCountChanged`,
`widgetVisibilityChanged`, in that order — `updated` is not the final
signal of a reset. -/
theorem C5_reset_signal_order_amended (s : DashboardState) :
    (resetData s).2 =
      [Signal.updated, Signal.dataReset, Signal.titleChanged,
        Signal.widgetCountChanged, Signal.widgetVisibilityChanged] := rfl

/-- Claim C8: `widgetTitles()` is the concatenation of the per-kind title
lists in kind-table order, and on the two-group scenario (group A with
handle "map" and no datasets, group B with three plottable datasets) the
titles come out as the Group titles, then the Plot titles, then the Map
title, with `totalWidgetCount() = 6`. -/
theorem C8_widget_titles_order (tA tB t1 t2 t3 : String) :
    (∀ s : DashboardState,
      widgetTitles s =
        groupTitles s ++ plotTitles s ++ barTitles s ++ gaugeTitles s ++
          thermometerTitles s ++ compassTitles s ++ gyroscopeTitles s ++
          accelerometerTitles s ++ mapTitles s) ∧
    (let A : Group := { title := tA, widget := "map", datasets := [] }
     let B : Group :=
       { title := tB, widget := "",
         datasets :=
           [{ title := t1, widget := "", graph := true },
             { title := t2, widget := "", graph := true },
             { title := t3, widget := "", graph := true }] }
     let f : Frame := { title := "T", groups := [A, B] }
     let s0 : DashboardState :=
       { emptyState with
         latestJsonFrame := { jsonDocument := some f, frameNumber := 1 } }
     widgetTitles (updateData s0).1 = [tA, tB, t1, t2, t3, tA] ∧
       totalWidgetCount (updateData s0).1 = 6) :=
  ⟨fun _ => rfl, rfl, rfl⟩

/-- Counterexample to C9 as stated: the dataset handle "Bar" differs from
the tag "bar" only in letter case, yet `getWidgetDatasets("bar")` does not
select it — dataset-level matching is exact, not case-insensitive. -/
theorem C9_case_matching_counterexample :
    qtToLower "Bar" = "bar" ∧ getWidgetDatasets mixedCaseFrame "bar" = [] := by
  decide

/-- Claim C9 amended: only group-level matching is case-insensitive (the
group handle is lowercased before comparison); dataset-level matching is
case-sensitive — every selected dataset's handle equals the tag exactly. -/
theorem C9_case_matching_amended (f : Frame) (tag : String) :
    (∀ g : Group, g ∈ f.groups → qtToLower g.widget = tag →
      g ∈ getWidgetGroups f tag) ∧
    (∀ d : Dataset, d ∈ getWidgetDatasets f tag → d.widget = tag) := by
  constructor
  · intro g hg hl
    exact List.mem_filter.mpr ⟨hg, by simp [hl]⟩
  · intro d hd
    rw [getWidgetDatasets, List.mem_flatMap] at hd
    obtain ⟨g, _, hdg⟩ := hd
    have hmem := List.mem_filter.mp hdg
    simpa using hmem.2

/-- Witness for the amended C9: the group with handle "MAP" is selected for
tag "map", and a selected "bar" dataset's handle is exactly the tag. -/
theorem C9_case_matching_amended_witness :
    mapGroupUpper ∈ getWidgetGroups mapFrameUpper "map" ∧
    barDataset.widget = "bar" :=
  ⟨(C9_case_matching_amended mapFrameUpper "map").1 mapGroupUpper (by decide)
      (by decide),
    (C9_case_matching_amended barFrame "bar").2 barDataset (by decide)⟩

theorem updateData_latestJsonFrame (s : DashboardState) :
    (updateData s).1.latestJsonFrame = s.latestJsonFrame := by
  cases hd : s.latestJsonFrame.jsonDocument with
  | none =>
    rw [updateData_none hd]
    rfl
  | some f =>
    rw [updateData_some hd]
    by_cases hr : regenProp s (classified (clearWidgets s) f)
    · simp only [if_pos hr]
      rfl
    · simp only [if_neg hr]
      rfl

theorem updateData_idem (s : DashboardState) :
    updateData (updateData s).1 =
      ((updateData s).1,
        match (updateData s).1.latestJsonFrame.jsonDocument with
        | some _ => [Signal.updated]
        | none => []) := by
  cases hd : s.latestJsonFrame.jsonDocument with
  | none =>
    rw [updateData_none hd]
    have hd2 : (clearWidgets s).latestJsonFrame.jsonDocument = none := hd
    rw [updateData_none hd2, hd2]
    rfl
  | some f =>
    rw [updateData_some hd]
    by_cases hr : regenProp s (classified (clearWidgets s) f)
    · simp only [if_pos hr]
      rw [updateData_some
        (show (reinitVisibility (clearVisibility (classified (clearWidgets s) f))).latestJsonFrame.jsonDocument
            = some f from hd)]
      simp [classified, clearWidgets, clearVisibility, reinitVisibility, regenProp,
        title, barCount, mapCount, plotCount, gaugeCount, groupCount, compassCount,
        gyroscopeCount, thermometerCount, accelerometerCount, hd]
    · simp only [if_neg hr]
      rw [updateData_some
        (show (classified (clearWidgets s) f).latestJsonFrame.jsonDocument
            = some f from hd)]
      simp [classified, clearWidgets, clearVisibility, reinitVisibility, regenProp,
        title, barCount, mapCount, plotCount, gaugeCount, groupCount, compassCount,
        gyroscopeCount, thermometerCount, accelerometerCount, hd]

/-- Counterexample to C7 as stated: a second `ingest` with the same
sequence id is not notification-free — the unconditional `emit updated()`
at the end of `updateData()` still fires. -/
theorem C7_duplicate_ingest_counterexample :
    (ingest (ingest emptyState jfiSample).1 jfiSample).2 = [Signal.updated] ∧
    (ingest (ingest emptyState jfiSample).1 jfiSample).2 ≠ [] := by
  decide

/-- Claim C7 amended: a second `ingest` with the same sequence id leaves
the observable state unchanged, but it is not signal-free: it re-emits
`updated` (alone) whenever the stored document is parseable, and emits
nothing only when the stored document is unparseable. -/
theorem C7_duplicate_ingest_amended (s : DashboardState) (frameInfo : JFI_Object) :
    (ingest (ingest s frameInfo).1 frameInfo).1 = (ingest s frameInfo).1 ∧
    (ingest (ingest s frameInfo).1 frameInfo).2 =
      (match (ingest s frameInfo).1.latestJsonFrame.jsonDocument with
        | some _ => [Signal.updated]
        | none => []) := by
  unfold ingest
  have hfn : frameInfo.frameNumber ≤
      (updateData (selectLatestJSON s frameInfo)).1.latestJsonFrame.frameNumber := by
    rw [updateData_latestJsonFrame]
    unfold selectLatestJSON
    split_ifs with h
    · exact le_refl _
    · omega
  have hsel :
      selectLatestJSON (updateData (selectLatestJSON s frameInfo)).1 frameInfo =
        (updateData (selectLatestJSON s frameInfo)).1 := by
    generalize hgen : (updateData (selectLatestJSON s frameInfo)).1 = r1 at hfn ⊢
    unfold selectLatestJSON
    rw [if_neg (by omega)]
  rw [hsel, updateData_idem (selectLatestJSON s frameInfo)]
  exact ⟨rfl, rfl⟩

end UI
